import Mathlib

/-!
Verification development for `circus/files/datafile.py` (spyking-circus).

The file shallowly embeds the `DataFile` base class: Python floats are
modelled as rationals, Python/numpy integers as `ℤ`, the configuration
object (`params`, a ConfigParser-like resolver) as partial maps from
(section, key) to typed values, mutable instance attributes used by the
lazily computed properties as an explicit `FileState` record, raised
exceptions and `sys.exit` as an `Except` error channel, and messages
printed through `print_error` as an explicit list of emitted diagnostics.
-/

namespace SpykingCircus

/-- Python `int(x)` on a real number: truncation toward zero. -/
def pyInt (q : ℚ) : ℤ := if 0 ≤ q then ⌊q⌋ else ⌈q⌉

/-- Python integer floor division `a // b`. -/
def pyFloorDiv (a b : ℤ) : ℤ := Int.fdiv a b

/-- Python float floor division `a // b` (result is a float, e.g. `2.0 // 3.0 = 0.0`). -/
def pyFloatFloorDiv (a b : ℚ) : ℚ := ((⌊a / b⌋ : ℤ) : ℚ)

/-- Modelled from Python `str.upper` (external stdlib), restricted to the
ASCII range that file extensions use. -/
def pyCharUpper (c : Char) : Char :=
  if 'a' ≤ c ∧ c ≤ 'z' then Char.ofNat (c.toNat - 32) else c

/-- Modelled from Python `str.upper` (external stdlib): uppercases every character. -/
def pyUpper (s : String) : String := ⟨s.data.map pyCharUpper⟩

/-- The failure channel: Python exceptions and `sys.exit` calls that abort
`DataFile` operations. -/
inductive PyFailure where
  /-- `NameError`: a local variable referenced before assignment. -/
  | nameError (var : String)
  /-- `TypeError`: e.g. wrong number of arguments to a `%`-format string. -/
  | typeError
  /-- `ValueError`: e.g. `float()` applied to a non-numeric string. -/
  | valueError
  /-- ConfigParser `NoOptionError`/`NoSectionError`: a missing configuration entry. -/
  | missingOption (sect key : String)
  /-- `sys.exit(code)` (raises `SystemExit`). -/
  | systemExit (code : Nat)
deriving DecidableEq

instance {ε α : Type} [DecidableEq ε] [DecidableEq α] : DecidableEq (Except ε α) :=
  fun a b =>
    match a, b with
    | .error e, .error f =>
      if h : e = f then .isTrue (by rw [h]) else .isFalse (by simp [h])
    | .error _, .ok _ => .isFalse (by simp)
    | .ok _, .error _ => .isFalse (by simp)
    | .ok x, .ok y =>
      if h : x = y then .isTrue (by rw [h]) else .isFalse (by simp [h])

/-- The configuration resolver (`self.params`): typed getters keyed by
(section, key).  `none` models the exception ConfigParser raises for an
absent entry. -/
structure Params where
  getfloat : String → String → Option ℚ
  getint : String → String → Option ℤ
  get : String → String → Option String

/-- A message built by Python `template % args`; `print_error` diagnostics
are recorded as these. -/
structure Msg where
  template : String
  args : List String
deriving DecidableEq

/-- Number of `%s` placeholders in a format template. -/
def countPlaceholders : List Char → Nat
  | '%' :: 's' :: rest => countPlaceholders rest + 1
  | _ :: rest => countPlaceholders rest
  | [] => 0

/-- Python `template % args`: raises `TypeError` when the number of
arguments does not match the number of placeholders. -/
def pyInterp (template : String) (args : List String) : Except PyFailure Msg :=
  if args.length = countPlaceholders template.data then .ok ⟨template, args⟩
  else .error .typeError

/-- Python local-name resolution: referencing a name absent from the local
scope raises `NameError`. -/
def lookupLocal (locals : List (String × String)) (v : String) : Except PyFailure String :=
  match locals.lookup v with
  | some s => .ok s
  | none => .error (.nameError v)

/-- Index of the last occurrence of a character in a list. -/
def lastIdxOf (c : Char) : List Char → Option Nat
  | [] => none
  | a :: rest =>
    match lastIdxOf c rest with
    | some i => some (i + 1)
    | none => if a = c then some 0 else none

/-- Modelled from Python `os.path.splitext` (external stdlib), for file
names without directory separators: splits off the suffix starting at the
last dot, except that a name whose characters before that dot are all dots
(e.g. `".cshrc"`) has no extension. -/
def splitext (s : String) : String × String :=
  match lastIdxOf '.' s.data with
  | none => (s, "")
  | some i =>
    if (s.data.take i).all (fun ch => ch = '.') then (s, "")
    else (⟨s.data.take i⟩, ⟨s.data.drop i⟩)

/-- Static per-format class attributes of a `DataFile` subclass. -/
structure FileFormat where
  /-- `_description` -/
  description : String
  /-- `_extension`: the allowed extension list, or `none` (Python `None`)
  to disable the extension check. -/
  extension : Option (List String)
  /-- `_parallel_write` -/
  parallel_write : Bool
  /-- `_is_writable` -/
  is_writable : Bool
deriving DecidableEq

/-- The mutable instance attributes backing the lazily computed
properties, plus an instrumentation counter for resolver lookups. -/
structure FileState where
  /-- `self._N_t`: `none` until the `N_t` property first resolves it. -/
  nt : Option ℤ
  /-- `self._template_shift`: only ever `none` after `__init__` (line 129);
  an explicit override would populate it. -/
  template_shift_attr : Option ℤ
  /-- `self._safety_time`: initialised to `none` (line 130) and never
  consulted by `get_safety_time`. -/
  safety_time_attr : Option ℚ
  /-- Instrumentation: how many typed configuration lookups have run. -/
  resolver_calls : ℕ
deriving DecidableEq

namespace DataFile

/-- Lines 142-145: `params.getfloat('detection', 'N_t')`, falling back to
`params.getfloat('data', 'N_t')` on exception.  Also returns how many
resolver lookups the attempt performed. -/
def resolveNtMs (p : Params) : Option ℚ × ℕ :=
  match p.getfloat "detection" "N_t" with
  | some v => (some v, 1)
  | none => (p.getfloat "data" "N_t", 2)

/-- Lines 147-149: `int(rate * N_t_ms * 1e-3)`, incremented by one when
even (`numpy.mod(_, 2) == 0`). -/
def computeNt (rate nt_ms : ℚ) : ℤ :=
  let raw := pyInt (rate * nt_ms * (1 / 1000))
  if raw % 2 = 0 then raw + 1 else raw

/-- The `N_t` property (lines 137-151): returns the cached `_N_t` when
set; otherwise resolves the millisecond duration from configuration,
converts to an odd sample count, stores it in `_N_t` and returns it. -/
def N_t (p : Params) (rate : ℚ) (s : FileState) : Except PyFailure (ℤ × FileState) :=
  match s.nt with
  | some v => .ok (v, s)
  | none =>
    match resolveNtMs p with
    | (none, _) => .error (.missingOption "data" "N_t")
    | (some ms, k) =>
      let v := computeNt rate ms
      .ok (v, { s with nt := some v, resolver_calls := s.resolver_calls + k })

/-- The `dist_peaks` property (lines 153-155): an alias for `N_t`. -/
def dist_peaks (p : Params) (rate : ℚ) (s : FileState) : Except PyFailure (ℤ × FileState) :=
  N_t p rate s

/-- The `template_shift` property (lines 157-162): returns
`_template_shift` when set, else `int((N_t - 1) // 2)`.  Note the computed
value is returned without being stored. -/
def template_shift (p : Params) (rate : ℚ) (s : FileState) :
    Except PyFailure (ℤ × FileState) :=
  match s.template_shift_attr with
  | some v => .ok (v, s)
  | none =>
    match N_t p rate s with
    | .error e => .error e
    | .ok (v, s') => .ok (pyFloorDiv (v - 1) 2, s')

/-- `get_safety_time` (lines 165-176).  `parseFloat` models the Python
builtin `float(str)` (external): `none` is a `ValueError`.  The per-handle
state `s` is passed through untouched: the method reads and writes no
instance attribute. -/
def get_safety_time (parseFloat : String → Option ℚ) (p : Params) (key : String)
    (s : FileState) : Except PyFailure (ℚ × FileState) :=
  match p.get key "safety_time" with
  | none => .error (.missingOption key "safety_time")
  | some str =>
    if str = "auto" then
      match resolveNtMs p with
      | (none, _) => .error (.missingOption "data" "N_t")
      | (some ms, _) => .ok (pyFloatFloorDiv ms 3, s)
    else
      match parseFloat str with
      | some q => .ok (q, s)
      | none => .error .valueError

/-- `_get_chunk_size_` (lines 187-194): the explicit argument when given,
else `params.getint('data', 'chunk_size')`. -/
def get_chunk_size (p : Params) (chunk_size : Option ℤ) : Except PyFailure ℤ :=
  match chunk_size with
  | some c => .ok c
  | none =>
    match p.getint "data" "chunk_size" with
    | some c => .ok c
    | none => .error (.missingOption "data" "chunk_size")

/-- The arithmetic core of `analyze` (lines 240-246):
`nb_chunks = shape[0] // chunk_size`,
`last_chunk_len = shape[0] - nb_chunks * chunk_size`, and the chunk count
is incremented when the last partial chunk is nonempty. -/
def analyzeChunks (shape0 chunk_size : ℤ) : ℤ × ℤ :=
  let nb_chunks := pyFloorDiv shape0 chunk_size
  let last_chunk_len := shape0 - nb_chunks * chunk_size
  if 0 < last_chunk_len then (nb_chunks + 1, last_chunk_len)
  else (nb_chunks, last_chunk_len)

/-- `analyze` (lines 231-246): resolve the chunk size, then compute the
chunk plan for `shape[0]` samples. -/
def analyze (p : Params) (shape0 : ℤ) (chunk_size : Option ℤ) :
    Except PyFailure (ℤ × ℤ) :=
  match get_chunk_size p chunk_size with
  | .error e => .error e
  | .ok c => .ok (analyzeChunks shape0 c)

/-- `get_snippet` (lines 212-219): delegates to `get_data` with chunk
index 0, chunk size `length`, padding `(time, time)` and the same node
subset.  `get_data` itself is abstract in the base class (each backend
implements it), so it is a parameter here. -/
def get_snippet {α : Type} (get_data : ℤ → ℤ → ℤ × ℤ → Option (List ℤ) → α)
    (time length : ℤ) (nodes : Option (List ℤ)) : α :=
  get_data 0 length (time, time) nodes

/-- The `kwargs` overrides `__init__` recognises for the three required
numeric fields (lines 110-111 set them as attributes before resolution). -/
structure Overrides where
  rate : Option ℚ
  N_e : Option ℤ
  N_tot : Option ℤ
deriving DecidableEq

/-- The constructed handle: immutable resolved fields plus the mutable
attribute record. -/
structure Handle where
  file_name : String
  is_empty : Bool
  rate : ℚ
  N_e : ℤ
  N_tot : ℤ
  state : FileState
deriving DecidableEq

/-- One iteration of the resolution loop (lines 113-124) for a
float-typed field (`value[2] == 'float'`, so `params.getfloat`): keep the
already-set attribute when present, else consult the resolver; a missing
entry propagates the resolver's exception.  Also returns the list of
(section, key) lookups performed. -/
def resolveFloatField (p : Params) (current : Option ℚ) (sect key : String) :
    Except PyFailure ℚ × List (String × String) :=
  match current with
  | some v => (.ok v, [])
  | none =>
    match p.getfloat sect key with
    | some v => (.ok v, [(sect, key)])
    | none => (.error (.missingOption sect key), [(sect, key)])

/-- One iteration of the resolution loop (lines 113-124) for an int-typed
field (`value[2] == 'int'`, so `numpy.int64(params.getint(...))`). -/
def resolveIntField (p : Params) (current : Option ℤ) (sect key : String) :
    Except PyFailure ℤ × List (String × String) :=
  match current with
  | some v => (.ok v, [])
  | none =>
    match p.getint sect key with
    | some v => (.ok v, [(sect, key)])
    | none => (.error (.missingOption sect key), [(sect, key)])

/-- The format template of line 95 (one `%s` placeholder). -/
def emptyMsgTemplate : String := "The file %s is empty and non writable..."

/-- The format template of line 103 (two `%s` placeholders). -/
def extMsgTemplate : String := "The extension %s is not valid for a %s file"

/-- Lines 100-104: when `_extension` is not `None`, the file's extension
must be a member of `_extension + [item.upper() for item in _extension]`;
otherwise rank 0 prints a diagnostic and every rank calls `sys.exit(0)`. -/
def extensionCheck (fmt : FileFormat) (rank : ℕ) (extension : String) :
    Except PyFailure Unit × List Msg :=
  match fmt.extension with
  | none => (.ok (), [])
  | some exts =>
    if extension ∈ exts ++ exts.map pyUpper then (.ok (), [])
    else
      if rank = 0 then
        match pyInterp extMsgTemplate [extension, fmt.description] with
        | .ok m => (.error (.systemExit 0), [m])
        | .error e => (.error e, [])
      else (.error (.systemExit 0), [])

/-- `__init__` (lines 69-135).  `rank` is `comm.rank` (the rank oracle);
`is_master` is `rank = 0`.  Returns the constructed handle or the
exception/exit that aborted construction, together with the diagnostics
emitted through `print_error` (debug-level `print_and_log` chatter is not
tracked).  At line 95 the local scope contains `file_name` but not yet
`extension`, which is only assigned at line 98: the lookup there models
Python's local-name resolution. -/
def init (fmt : FileFormat) (rank : ℕ) (p : Params) (file_name : String)
    (is_empty : Bool) (kw : Overrides) : Except PyFailure Handle × List Msg :=
  if is_empty && !fmt.is_writable then
    if rank = 0 then
      match lookupLocal [("file_name", file_name)] "extension" with
      | .error e => (.error e, [])
      | .ok extv =>
        match pyInterp DataFile.emptyMsgTemplate [extv, fmt.description] with
        | .error e => (.error e, [])
        | .ok m => (.error (.systemExit 0), [m])
    else (.error (.systemExit 0), [])
  else
    let extension := (splitext file_name).2
    match extensionCheck fmt rank extension with
    | (.error e, ms) => (.error e, ms)
    | (.ok _, ms) =>
      match resolveFloatField p kw.rate "data" "sampling_rate" with
      | (.error e, _) => (.error e, ms)
      | (.ok rate, _) =>
        match resolveIntField p kw.N_e "data" "N_e" with
        | (.error e, _) => (.error e, ms)
        | (.ok ne, _) =>
          match resolveIntField p kw.N_tot "data" "N_total" with
          | (.error e, _) => (.error e, ms)
          | (.ok ntot, _) =>
            (.ok { file_name := file_name, is_empty := is_empty, rate := rate,
                   N_e := ne, N_tot := ntot,
                   state := ⟨none, none, none, 0⟩ }, ms)

end DataFile

/-- A concrete configuration used by the closed witness theorems. -/
def paramsEx : Params :=
  { getfloat := fun sect key =>
      if sect = "detection" ∧ key = "N_t" then some 1
      else if sect = "data" ∧ key = "sampling_rate" then some 20000
      else none,
    getint := fun sect key =>
      if sect = "data" ∧ key = "N_e" then some 4
      else if sect = "data" ∧ key = "N_total" then some 4
      else if sect = "data" ∧ key = "chunk_size" then some 60
      else none,
    get := fun sect key =>
      if sect = "whitening" ∧ key = "safety_time" then some "auto"
      else if sect = "clustering" ∧ key = "safety_time" then some "3.5"
      else none }

/-- A concrete non-writable format accepting the `.dat` extension. -/
def fmtEx : FileFormat := ⟨"mydatafile", some [".dat"], false, false⟩

/-- A concrete writable format accepting the `.dat` extension. -/
def fmtW : FileFormat := ⟨"mydatafile", some [".dat"], false, true⟩

/-- The attribute state right after `__init__` (lines 127-130). -/
def s0 : FileState := ⟨none, none, none, 0⟩

/-- The attribute state after a first `N_t` access under `paramsEx` with
`rate = 20000`. -/
def s1 : FileState := ⟨some 21, none, none, 1⟩

/-- Empty override set (no `kwargs`). -/
def ovNone : DataFile.Overrides := ⟨none, none, none⟩

/-- A concrete model of the Python builtin `float(str)` parser covering
the literals the witnesses use. -/
def parseFloatEx : String → Option ℚ := fun s =>
  if s = "3.5" then some (7/2) else none

/-! ## Helper lemmas -/

theorem floorQ_twenty : ⌊(20 : ℚ)⌋ = 20 := by
  rw [Int.floor_eq_iff]; norm_num

theorem computeNt_ex : DataFile.computeNt 20000 1 = 21 := by
  have harg : (20000 : ℚ) * 1 * (1 / 1000) = 20 := by norm_num
  unfold DataFile.computeNt pyInt
  rw [harg, if_pos (by norm_num : (0 : ℚ) ≤ 20), floorQ_twenty]
  norm_num

theorem N_t_paramsEx : DataFile.N_t paramsEx 20000 s0 = .ok (21, s1) := by
  simp [DataFile.N_t, DataFile.resolveNtMs, paramsEx, s0, s1, computeNt_ex]

/-! ## Claim theorems -/

/-- C1: `analyze` returns `(chunk_count, remainder)` with
`whole = shape0 // chunk_size`, `remainder = shape0 - whole*chunk_size`;
if the remainder is positive the count is `whole + 1` with that remainder,
else the count is `whole` with remainder 0; consequently
`chunk_count*chunk_size >= shape0` and
`(chunk_count - 1)*chunk_size < shape0`; and `analyze` on
`shape0 = 1000`, `chunk_size = 300` returns `(4, 100)`. -/
theorem analyze_chunk_plan (p : Params) (s c : ℤ) (_hs : 0 ≤ s) (hc : 0 < c) :
    (∃ n r, DataFile.analyze p s (some c) = .ok (n, r) ∧
       n = (if 0 < s - pyFloorDiv s c * c then pyFloorDiv s c + 1 else pyFloorDiv s c) ∧
       r = (if 0 < s - pyFloorDiv s c * c then s - pyFloorDiv s c * c else 0) ∧
       s ≤ n * c ∧ (n - 1) * c < s) ∧
    DataFile.analyze p 1000 (some 300) = .ok (4, 100) := by
  have hfd : pyFloorDiv s c = s / c := Int.fdiv_eq_ediv s (le_of_lt hc)
  have hmod : s - pyFloorDiv s c * c = s % c := by
    rw [hfd, Int.emod_def]; ring
  have h0 : 0 ≤ s % c := Int.emod_nonneg s (ne_of_gt hc)
  have h1 : s % c < c := Int.emod_lt_of_pos s hc
  have hu : pyFloorDiv s c * c = s - s % c := by linarith [hmod]
  constructor
  · by_cases hrem : 0 < s - pyFloorDiv s c * c
    · refine ⟨pyFloorDiv s c + 1, s - pyFloorDiv s c * c, ?_, by simp [hrem],
        by simp [hrem], ?_, ?_⟩
      · simp [DataFile.analyze, DataFile.get_chunk_size, DataFile.analyzeChunks, hrem]
      · have hx : (pyFloorDiv s c + 1) * c = pyFloorDiv s c * c + c := by ring
        rw [hx, hu]; linarith
      · have hx : (pyFloorDiv s c + 1 - 1) * c = pyFloorDiv s c * c := by ring
        rw [hx, hu]
        rw [hmod] at hrem
        linarith
    · have hz : s % c = 0 := by rw [hmod] at hrem; linarith
      refine ⟨pyFloorDiv s c, s - pyFloorDiv s c * c, ?_, by simp [hrem],
        ?_, ?_, ?_⟩
      · simp [DataFile.analyze, DataFile.get_chunk_size, DataFile.analyzeChunks, hrem]
      · rw [if_neg hrem, hmod, hz]
      · rw [hu, hz]; linarith
      · have hx : (pyFloorDiv s c - 1) * c = pyFloorDiv s c * c - c := by ring
        rw [hx, hu, hz]; linarith
  · rfl

/-- C1 witness: `analyze_chunk_plan` evaluated at `shape0 = 1000`,
`chunk_size = 300`. -/
theorem analyze_chunk_plan_witness :
    (0 : ℤ) ≤ 1000 ∧ (0 : ℤ) < 300 ∧
    ((∃ n r, DataFile.analyze paramsEx 1000 (some 300) = .ok (n, r) ∧
       n = (if 0 < 1000 - pyFloorDiv 1000 300 * 300 then pyFloorDiv 1000 300 + 1
            else pyFloorDiv 1000 300) ∧
       r = (if 0 < 1000 - pyFloorDiv 1000 300 * 300 then 1000 - pyFloorDiv 1000 300 * 300
            else 0) ∧
       (1000 : ℤ) ≤ n * 300 ∧ (n - 1) * 300 < 1000) ∧
     DataFile.analyze paramsEx 1000 (some 300) = .ok (4, 100)) :=
  ⟨by norm_num, by norm_num,
   analyze_chunk_plan paramsEx 1000 300 (by norm_num) (by norm_num)⟩

/-- C2, counterexample: the claim derives N_t from `round`, but line 147
truncates with `int(...)`.  At `rate = 21700.0`, `duration_ms = 1.0` the
product is 21.7: the code truncates to 21 (odd, kept), while the claimed
value set is `{round 21.7, round 21.7 + 1} = {22, 23}`, which excludes the
actual result; moreover an increment happens here neither when the rounded
value 22 is even, contradicting the claimed parity rule. -/
theorem N_t_round_counterexample :
    DataFile.computeNt 21700 1 = 21 ∧
    round ((21700 : ℚ) * 1 * (1 / 1000)) = 22 ∧
    ¬ (DataFile.computeNt 21700 1 = round ((21700 : ℚ) * 1 * (1 / 1000)) ∨
       DataFile.computeNt 21700 1 = round ((21700 : ℚ) * 1 * (1 / 1000)) + 1) := by
  have harg : (21700 : ℚ) * 1 * (1 / 1000) = 217 / 10 := by norm_num
  have hfl : ⌊(217 / 10 : ℚ)⌋ = 21 := by rw [Int.floor_eq_iff]; norm_num
  have hc : DataFile.computeNt 21700 1 = 21 := by
    unfold DataFile.computeNt pyInt
    rw [harg, if_pos (by norm_num : (0 : ℚ) ≤ 217 / 10), hfl]
    norm_num
  have hr : round ((21700 : ℚ) * 1 * (1 / 1000)) = 22 := by
    rw [harg, round_eq, Int.floor_eq_iff]; norm_num
  refine ⟨hc, hr, ?_⟩
  rw [hc, hr]
  omega

/-- C2, amended: for every valid pair `(rate, duration_ms)` with
`rate * duration_ms ≥ 0`, the computed window length `N_t` is odd and
positive, and equals either `int(rate*duration_ms/1000)` (truncation
toward zero, not rounding) or that truncated value incremented by one,
the increment occurring exactly when the truncated value is even. -/
theorem N_t_truncation_parity (rate ms : ℚ) (h : 0 ≤ rate * ms) :
    DataFile.computeNt rate ms % 2 = 1 ∧ 0 < DataFile.computeNt rate ms ∧
    (DataFile.computeNt rate ms = pyInt (rate * ms * (1 / 1000)) ∧
       pyInt (rate * ms * (1 / 1000)) % 2 = 1 ∨
     DataFile.computeNt rate ms = pyInt (rate * ms * (1 / 1000)) + 1 ∧
       pyInt (rate * ms * (1 / 1000)) % 2 = 0) := by
  have hx : 0 ≤ rate * ms * (1 / 1000) := by
    apply mul_nonneg h; norm_num
  have hraw : 0 ≤ pyInt (rate * ms * (1 / 1000)) := by
    unfold pyInt
    rw [if_pos hx]
    exact Int.floor_nonneg.mpr hx
  have key : ∀ raw : ℤ, 0 ≤ raw →
      (if raw % 2 = 0 then raw + 1 else raw) % 2 = 1 ∧
      0 < (if raw % 2 = 0 then raw + 1 else raw) ∧
      ((if raw % 2 = 0 then raw + 1 else raw) = raw ∧ raw % 2 = 1 ∨
       (if raw % 2 = 0 then raw + 1 else raw) = raw + 1 ∧ raw % 2 = 0) := by
    intro raw h0
    by_cases hp : raw % 2 = 0 <;> simp [hp] <;> omega
  exact key (pyInt (rate * ms * (1 / 1000))) hraw

/-- C2 witness: `N_t_truncation_parity` evaluated at `rate = 20000`,
`duration_ms = 1`. -/
theorem N_t_truncation_parity_witness :
    (0 : ℚ) ≤ 20000 * 1 ∧
    (DataFile.computeNt 20000 1 % 2 = 1 ∧ 0 < DataFile.computeNt 20000 1 ∧
     (DataFile.computeNt 20000 1 = pyInt ((20000 : ℚ) * 1 * (1 / 1000)) ∧
        pyInt ((20000 : ℚ) * 1 * (1 / 1000)) % 2 = 1 ∨
      DataFile.computeNt 20000 1 = pyInt ((20000 : ℚ) * 1 * (1 / 1000)) + 1 ∧
        pyInt ((20000 : ℚ) * 1 * (1 / 1000)) % 2 = 0)) :=
  ⟨by norm_num, N_t_truncation_parity 20000 1 (by norm_num)⟩

/-- C3: whenever `_template_shift` was not overridden, the
`template_shift` property returns `(N_t - 1) // 2` (integer floor
division) for the `N_t` the window-length property yields. -/
theorem template_shift_formula (p : Params) (rate : ℚ) (s : FileState)
    (hov : s.template_shift_attr = none) (v : ℤ) (s' : FileState)
    (h : DataFile.N_t p rate s = .ok (v, s')) :
    DataFile.template_shift p rate s = .ok (pyFloorDiv (v - 1) 2, s') := by
  simp [DataFile.template_shift, hov, h]

/-- C3 witness: under `paramsEx` with `rate = 20000` the window length is
21 and the shift is `(21 - 1) // 2 = 10`. -/
theorem template_shift_formula_witness :
    s0.template_shift_attr = none ∧
    DataFile.N_t paramsEx 20000 s0 = .ok (21, s1) ∧
    DataFile.template_shift paramsEx 20000 s0 = .ok (pyFloorDiv (21 - 1) 2, s1) ∧
    pyFloorDiv (21 - 1) 2 = 10 :=
  ⟨rfl, N_t_paramsEx,
   template_shift_formula paramsEx 20000 s0 rfl 21 s1 N_t_paramsEx, by decide⟩

/-- C4, amended: once a first `N_t` access has resolved and cached the
window length, every further `N_t` access returns the same value with the
state (including the resolver-call counter) unchanged, and every
`template_shift` access likewise returns a value while leaving the state
unchanged — so repeated accesses return identical values and never
re-invoke the configuration resolver.  `N_t` is cached in `_N_t`;
`template_shift` is recomputed from that cache on each access rather than
being stored itself. -/
theorem window_caching (p : Params) (rate : ℚ) (s : FileState) (v : ℤ)
    (s' : FileState) (h : DataFile.N_t p rate s = .ok (v, s')) :
    s'.nt = some v ∧
    DataFile.N_t p rate s' = .ok (v, s') ∧
    ∃ sh, DataFile.template_shift p rate s' = .ok (sh, s') := by
  have hnt : s'.nt = some v := by
    unfold DataFile.N_t at h
    cases hs0 : s.nt with
    | some w =>
      rw [hs0] at h
      simp only [Except.ok.injEq, Prod.mk.injEq] at h
      rw [← h.2, hs0, h.1]
    | none =>
      rw [hs0] at h
      rcases hr : DataFile.resolveNtMs p with ⟨o, k⟩
      rw [hr] at h
      cases o with
      | none => simp at h
      | some ms =>
        simp only [Except.ok.injEq, Prod.mk.injEq] at h
        rw [← h.2, ← h.1]
  have h2 : DataFile.N_t p rate s' = .ok (v, s') := by
    unfold DataFile.N_t
    rw [hnt]
  refine ⟨hnt, h2, ?_⟩
  cases hov : s'.template_shift_attr with
  | some w => exact ⟨w, by simp [DataFile.template_shift, hov]⟩
  | none =>
    exact ⟨pyFloorDiv (v - 1) 2, by simp [DataFile.template_shift, hov, h2]⟩

/-- C4 witness: `window_caching` after the first `N_t` access under
`paramsEx`. -/
theorem window_caching_witness :
    DataFile.N_t paramsEx 20000 s0 = .ok (21, s1) ∧
    (s1.nt = some 21 ∧
     DataFile.N_t paramsEx 20000 s1 = .ok (21, s1) ∧
     ∃ sh, DataFile.template_shift paramsEx 20000 s1 = .ok (sh, s1)) :=
  ⟨N_t_paramsEx, window_caching paramsEx 20000 s0 21 s1 N_t_paramsEx⟩

/-- C4, counterexample to the claim as stated: `template_shift` is not
itself cached.  In the state `s1` reached after the first `N_t` access,
a `template_shift` access computes 10 but returns the state unchanged:
the `_template_shift` attribute is still unset afterwards, so nothing was
stored ("cached") for the shift. -/
theorem template_shift_not_cached_counterexample :
    DataFile.template_shift paramsEx 20000 s1 = .ok (10, s1) ∧
    s1.template_shift_attr = none := ⟨rfl, rfl⟩

/-- C5: a non-writable format constructed with `is_empty = true` never
yields a handle: for every rank, configuration and file name, `__init__`
aborts with a failure (the process-fatal misconfiguration outcome the
specification types as `ConfigurationError`). -/
theorem empty_nonwritable_never_constructed (fmt : FileFormat) (rank : ℕ)
    (p : Params) (file_name : String) (kw : DataFile.Overrides)
    (hw : fmt.is_writable = false) :
    ∃ e, (DataFile.init fmt rank p file_name true kw).1 = .error e := by
  have hlu : lookupLocal [("file_name", file_name)] "extension" =
      .error (.nameError "extension") := rfl
  by_cases hr : rank = 0
  · exact ⟨.nameError "extension", by simp [DataFile.init, hw, hr, hlu]⟩
  · exact ⟨.systemExit 0, by simp [DataFile.init, hw, hr]⟩

/-- C5 witness: `empty_nonwritable_never_constructed` on the concrete
non-writable format `fmtEx`. -/
theorem empty_nonwritable_witness :
    fmtEx.is_writable = false ∧
    ∃ e, (DataFile.init fmtEx 0 paramsEx "mydata.dat" true ovNone).1 = .error e :=
  ⟨rfl, empty_nonwritable_never_constructed fmtEx 0 paramsEx "mydata.dat" ovNone rfl⟩

/-- C6, counterexample: the extension test is not case-insensitive.  With
`allowed_extensions = [".dat"]` the accepted set is
`[".dat"] + [".DAT"]` (exact spellings plus fully-uppercased ones), so the
file `mydata.Dat` — whose extension `.Dat` differs from the allowed
`.dat` only in letter case — is rejected and construction exits, while
`mydata.dat` is accepted and construction succeeds. -/
theorem extension_case_counterexample :
    (DataFile.init fmtEx 0 paramsEx "mydata.Dat" false ovNone).1 =
      .error (.systemExit 0) ∧
    (DataFile.init fmtEx 0 paramsEx "mydata.dat" false ovNone).1.isOk = true ∧
    pyUpper ".dat" = ".DAT" := ⟨rfl, rfl, rfl⟩

/-- C6, amended: `allowed_extensions = None` disables the extension check;
otherwise construction fails unless the file's extension is an exact
member of the allowed list extended with the fully-uppercased spelling of
each allowed entry (not a general case-insensitive comparison). -/
theorem extension_membership (fmt : FileFormat) (rank : ℕ) (p : Params)
    (file_name : String) (kw : DataFile.Overrides) :
    (fmt.extension = none →
       DataFile.extensionCheck fmt rank ((splitext file_name).2) = (.ok (), [])) ∧
    ∀ exts, fmt.extension = some exts →
      (((splitext file_name).2 ∈ exts ++ exts.map pyUpper) →
         (DataFile.extensionCheck fmt rank ((splitext file_name).2)).1 = .ok ()) ∧
      (¬ ((splitext file_name).2 ∈ exts ++ exts.map pyUpper) →
         (DataFile.init fmt rank p file_name false kw).1 = .error (.systemExit 0)) := by
  have hcp : countPlaceholders DataFile.extMsgTemplate.data = 2 := by decide
  refine ⟨fun hn => by simp [DataFile.extensionCheck, hn], ?_⟩
  intro exts hext
  constructor
  · intro hmem
    simp [DataFile.extensionCheck, hext, hmem]
  · intro hmem
    have hec : ∃ ms, DataFile.extensionCheck fmt rank ((splitext file_name).2) =
        (.error (.systemExit 0), ms) := by
      by_cases hr : rank = 0
      · exact ⟨[⟨DataFile.extMsgTemplate, [(splitext file_name).2, fmt.description]⟩],
          by simp [DataFile.extensionCheck, hext, hmem, hr, pyInterp, hcp]⟩
      · exact ⟨[], by simp [DataFile.extensionCheck, hext, hmem, hr]⟩
    obtain ⟨ms, hec⟩ := hec
    simp [DataFile.init, hec]

/-- C6 witness: `extension_membership` on the format `fmtEx` and the file
`mydata.xyz`, whose extension is outside the accepted set. -/
theorem extension_membership_witness :
    fmtEx.extension = some [".dat"] ∧
    ¬ ((splitext "mydata.xyz").2 ∈ [".dat"] ++ [".dat"].map pyUpper) ∧
    (DataFile.init fmtEx 0 paramsEx "mydata.xyz" false ovNone).1 =
      .error (.systemExit 0) :=
  ⟨rfl, by decide,
   ((extension_membership fmtEx 0 paramsEx "mydata.xyz" ovNone).2 [".dat"] rfl).2
     (by decide)⟩

/-- C7: for each required numeric field, an already-set attribute is kept
verbatim with no configuration lookup; otherwise the value comes from one
typed configuration lookup with no default, and an absent entry is a hard
failure — for both the float-typed (`rate` via `getfloat`) and the
int-typed (`N_e`, `N_tot` via `getint`) resolution paths. -/
theorem required_field_resolution (p : Params) (sect key : String) :
    (∀ v : ℚ, DataFile.resolveFloatField p (some v) sect key = (.ok v, [])) ∧
    (∀ v : ℤ, DataFile.resolveIntField p (some v) sect key = (.ok v, [])) ∧
    (∀ v : ℚ, p.getfloat sect key = some v →
       DataFile.resolveFloatField p none sect key = (.ok v, [(sect, key)])) ∧
    (p.getfloat sect key = none →
       DataFile.resolveFloatField p none sect key =
         (.error (.missingOption sect key), [(sect, key)])) ∧
    (∀ v : ℤ, p.getint sect key = some v →
       DataFile.resolveIntField p none sect key = (.ok v, [(sect, key)])) ∧
    (p.getint sect key = none →
       DataFile.resolveIntField p none sect key =
         (.error (.missingOption sect key), [(sect, key)])) := by
  refine ⟨fun v => rfl, fun v => rfl, ?_, ?_, ?_, ?_⟩
  · intro v hv; simp [DataFile.resolveFloatField, hv]
  · intro hv; simp [DataFile.resolveFloatField, hv]
  · intro v hv; simp [DataFile.resolveIntField, hv]
  · intro hv; simp [DataFile.resolveIntField, hv]

/-- C7 witness: `required_field_resolution` under `paramsEx`: an override
is kept without lookup, `sampling_rate` is read from the configuration,
and the absent key `radius` fails hard. -/
theorem required_field_resolution_witness :
    DataFile.resolveFloatField paramsEx (some 5) "data" "sampling_rate" =
      (.ok 5, []) ∧
    DataFile.resolveFloatField paramsEx none "data" "sampling_rate" =
      (.ok 20000, [("data", "sampling_rate")]) ∧
    DataFile.resolveIntField paramsEx none "data" "radius" =
      (.error (.missingOption "data" "radius"), [("data", "radius")]) :=
  ⟨(required_field_resolution paramsEx "data" "sampling_rate").1 5,
   (required_field_resolution paramsEx "data" "sampling_rate").2.2.1 20000 rfl,
   (required_field_resolution paramsEx "data" "radius").2.2.2.2.2 rfl⟩

/-- C9: `get_safety_time key` returns the configured millisecond window
duration (detection-scoped `N_t`, falling back to the data-scoped key)
floor-divided by 3 when the configured `safety_time` is the literal
`"auto"`, and `float(value)` for any other parseable value; every call
leaves the handle state untouched (nothing is cached), so the result is
recomputed from the configuration on each call. -/
theorem get_safety_time_spec (parseFloat : String → Option ℚ) (p : Params)
    (key : String) (s : FileState) :
    (∀ ms k, p.get key "safety_time" = some "auto" →
       DataFile.resolveNtMs p = (some ms, k) →
       DataFile.get_safety_time parseFloat p key s = .ok (pyFloatFloorDiv ms 3, s)) ∧
    (∀ str q, p.get key "safety_time" = some str → str ≠ "auto" →
       parseFloat str = some q →
       DataFile.get_safety_time parseFloat p key s = .ok (q, s)) ∧
    (∀ r s', DataFile.get_safety_time parseFloat p key s = .ok (r, s') → s' = s) := by
  refine ⟨?_, ?_, ?_⟩
  · intro ms k hg hr
    simp [DataFile.get_safety_time, hg, hr]
  · intro str q hg hne hp
    simp [DataFile.get_safety_time, hg, hne, hp]
  · intro r s' h
    unfold DataFile.get_safety_time at h
    split at h
    · simp at h
    · split at h
      · split at h
        · simp at h
        · simp only [Except.ok.injEq, Prod.mk.injEq] at h
          exact h.2.symm
      · split at h
        · simp only [Except.ok.injEq, Prod.mk.injEq] at h
          exact h.2.symm
        · simp at h

/-- C9 witness: under `paramsEx`, the whitening-scoped `safety_time` is
`"auto"` and evaluates to `1 // 3. = 0`, while the clustering-scoped value
`"3.5"` parses to `7/2`; both calls leave the state unchanged. -/
theorem get_safety_time_witness :
    paramsEx.get "whitening" "safety_time" = some "auto" ∧
    DataFile.resolveNtMs paramsEx = (some 1, 1) ∧
    DataFile.get_safety_time parseFloatEx paramsEx "whitening" s0 =
      .ok (pyFloatFloorDiv 1 3, s0) ∧
    pyFloatFloorDiv 1 3 = 0 ∧
    parseFloatEx "3.5" = some (7 / 2) ∧
    DataFile.get_safety_time parseFloatEx paramsEx "clustering" s0 =
      .ok (7 / 2, s0) := by
  have hfl : ⌊(1 : ℚ) / 3⌋ = 0 := by rw [Int.floor_eq_iff]; norm_num
  refine ⟨rfl, rfl,
    (get_safety_time_spec parseFloatEx paramsEx "whitening" s0).1 1 1 rfl rfl,
    ?_, rfl,
    (get_safety_time_spec parseFloatEx paramsEx "clustering" s0).2.1 "3.5" (7 / 2)
      rfl (by decide) rfl⟩
  unfold pyFloatFloorDiv
  rw [hfl]
  norm_num

/-- C10: on rank 0, the empty/non-writable error branch aborts before the
intended `sys.exit`: the diagnostic of line 95 references the local
`extension` before its assignment on line 98, so construction fails with a
`NameError` and no diagnostic is emitted; independently, the format string
there has a single `%s` placeholder but is given two arguments, so even
with `extension` bound the interpolation would raise a `TypeError`. -/
theorem empty_branch_diagnostic_bug (fmt : FileFormat) (p : Params)
    (file_name : String) (kw : DataFile.Overrides)
    (hw : fmt.is_writable = false) :
    DataFile.init fmt 0 p file_name true kw = (.error (.nameError "extension"), []) ∧
    ∀ extv, pyInterp DataFile.emptyMsgTemplate [extv, fmt.description] = .error .typeError := by
  have hlu : lookupLocal [("file_name", file_name)] "extension" =
      .error (.nameError "extension") := rfl
  have hcp : countPlaceholders DataFile.emptyMsgTemplate.data = 1 := by decide
  constructor
  · simp [DataFile.init, hw, hlu]
  · intro extv
    simp [pyInterp, hcp]

/-- C10 witness: `empty_branch_diagnostic_bug` on the concrete
non-writable format `fmtEx`. -/
theorem empty_branch_diagnostic_bug_witness :
    fmtEx.is_writable = false ∧
    DataFile.init fmtEx 0 paramsEx "mydata.dat" true ovNone =
      (.error (.nameError "extension"), []) ∧
    pyInterp DataFile.emptyMsgTemplate [".dat", fmtEx.description] = .error .typeError :=
  ⟨rfl, (empty_branch_diagnostic_bug fmtEx paramsEx "mydata.dat" ovNone rfl).1,
   (empty_branch_diagnostic_bug fmtEx paramsEx "mydata.dat" ovNone rfl).2 ".dat"⟩

/-- C8: `get_snippet time length nodes` is exactly
`get_data 0 length (time, time) nodes`, for every backend `get_data`. -/
theorem get_snippet_decomposition {α : Type}
    (get_data : ℤ → ℤ → ℤ × ℤ → Option (List ℤ) → α)
    (time length : ℤ) (nodes : Option (List ℤ)) :
    DataFile.get_snippet get_data time length nodes =
      get_data 0 length (time, time) nodes := rfl

end SpykingCircus
